import Mathlib

/-!
Shallow embedding of the `rs-mod-validators` crate (`src/lib.rs`): the
`Validator` constraint builder and its family of `validate_*` evaluators.

External collaborators are modelled as follows, per the crate's black-box
treatment of them:
* the `i18n` localization capability is modelled structurally: a message is
  its lookup key together with its named interpolation arguments
  (localization itself performs no further validation logic);
* the `nulls` tri-state wrapper is modelled as the inductive `Null` with
  constructors `Undefined`, `Null`, `Value`, and an extraction `take`
  collapsing `Undefined`/`Null` to nothing;
* `base64_url::decode`, `serde_json::to_string` for sizes, and `Regex`
  compilation/matching are passed as explicit function parameters to the
  evaluators that call them;
* Rust `str::len` is UTF-8 byte length and `bytes()` iterates UTF-8 bytes,
  modelled by an explicit UTF-8 encoder over the string's characters;
* `f32` candidate values are modelled by their exact widening into `Float`
  (every IEEE binary32 value is exactly representable in binary64 and the
  orderings agree), with the narrowing cast `f64 as f32` applied to the
  stored `f64` bounds passed as an explicit parameter.
-/

namespace RsValidators

/-- Localized message: the `{field}-{suffix}` lookup key together with the
named interpolation arguments supplied via `set_args`. -/
structure ErrMsg where
  key : String
  args : List (String × String)
deriving DecidableEq, Repr

/-- Tri-state nullable wrapper of the external `nulls` crate: absent
(`Undefined`), explicitly null (`Null`), or present (`Value`). -/
inductive Null (α : Type) where
  | Undefined : Null α
  | Null : Null α
  | Value : α → Null α
deriving DecidableEq, Repr

/-- Extraction (`take`): a concrete value or nothing, collapsing
`Undefined` and `Null` to nothing. -/
def Null.take : RsValidators.Null α → Option α
  | .Value a => some a
  | _ => none

/-- Presence test (`is_some`): true exactly on `Value`. -/
def Null.is_some : RsValidators.Null α → Bool
  | .Value _ => true
  | _ => false

/-- Model of `i18n::get(key)`: a message with no interpolation arguments. -/
def i18nGet (key : String) : ErrMsg := ⟨key, []⟩

/-- Model of `i18n::new(key).set_args(...)....build()`: a message with its
named interpolation arguments. -/
def i18nBuild (key : String) (args : List (String × String)) : ErrMsg :=
  ⟨key, args⟩

/-- Size/dimension domain object of the external `sizes` crate: `scale` and
`orientation` are string-convertible enumerations (held here as their
string renderings), `width` and `height` are integers. -/
structure Size where
  scale : String
  orientation : String
  width : Nat
  height : Nat
deriving DecidableEq, Repr

/-- Constant `MIN` of the source: strict-password minimum length. -/
def MIN : Nat := 8

/-- Constant `MAX` of the source: strict-password maximum length. -/
def MAX : Nat := 64

/-- The `Validator` struct: accumulated constraint configuration and the
candidate value slots, with the source's `Default`-derived initial values. -/
structure Validator where
  field : String := ""
  min : Option Nat := none
  fmin : Option Float := none
  fmax : Option Float := none
  max : Option Nat := none
  len : Option Nat := none
  option_list_string : Option (List String) := none
  is_case_sensitive : Bool := false
  is_null : Bool := false
  is_required : Bool := false
  i32_value : Option Int := none
  i64_value : Option Int := none
  f32_value : Option Float := none
  f64_value : Option Float := none
  string_value : String := ""
  parent_string : String := ""
  list_sizes_value : List Size := []

/-- Constructor `Validator::new(field)`. -/
def Validator.new (field : String) : Validator :=
  { field := field, is_required := false, is_null := false }

/-- Builder `set_as_case_sensitive`. -/
def Validator.set_as_case_sensitive (v : Validator) (b : Bool) : Validator :=
  { v with is_case_sensitive := b }

/-- Builder `set_as_nullable`. -/
def Validator.set_as_nullable (v : Validator) (b : Bool) : Validator :=
  { v with is_null := b }

/-- Builder `set_as_required`. -/
def Validator.set_as_required (v : Validator) (b : Bool) : Validator :=
  { v with is_required := b }

/-- Builder `set_i32_value`: `take`s the tri-state wrapper. -/
def Validator.set_i32_value (v : Validator) (int32 : Null Int) : Validator :=
  { v with i32_value := int32.take }

/-- Builder `set_i64_value`: `take`s the tri-state wrapper. -/
def Validator.set_i64_value (v : Validator) (int64 : Null Int) : Validator :=
  { v with i64_value := int64.take }

/-- Builder `set_f32_value`: `take`s the tri-state wrapper. -/
def Validator.set_f32_value (v : Validator) (float32 : Null Float) : Validator :=
  { v with f32_value := float32.take }

/-- Builder `set_f64_value`: `take`s the tri-state wrapper. -/
def Validator.set_f64_value (v : Validator) (float64 : Null Float) : Validator :=
  { v with f64_value := float64.take }

/-- Builder `set_len`. -/
def Validator.set_len (v : Validator) (len : Nat) : Validator :=
  { v with len := some len }

/-- Builder `set_min`. -/
def Validator.set_min (v : Validator) (mn : Nat) : Validator :=
  { v with min := some mn }

/-- Builder `set_fmin`. -/
def Validator.set_fmin (v : Validator) (fmn : Float) : Validator :=
  { v with fmin := some fmn }

/-- Builder `set_list_sizes_value`: `take`s the wrapper, defaulting to the
empty sequence. -/
def Validator.set_list_sizes_value (v : Validator) (ls : Null (List Size)) :
    Validator :=
  { v with list_sizes_value := ls.take.getD [] }

/-- Builder `set_max`. -/
def Validator.set_max (v : Validator) (mx : Nat) : Validator :=
  { v with max := some mx }

/-- Builder `set_fmax`. -/
def Validator.set_fmax (v : Validator) (fmx : Float) : Validator :=
  { v with fmax := some fmx }

/-- Builder `set_option_list` applied to string items (for which Rust's
`to_string` is the identity). -/
def Validator.set_option_list (v : Validator) (l : List String) : Validator :=
  { v with option_list_string := some l }

/-- Builder `set_string_value`: `take`s the wrapper, defaulting to the
empty string. -/
def Validator.set_string_value (v : Validator) (s : Null String) : Validator :=
  { v with string_value := s.take.getD "" }

/-- Builder `set_parent_string`. -/
def Validator.set_parent_string (v : Validator) (s : String) : Validator :=
  { v with parent_string := s }

/-- UTF-8 encoding of one character, as Rust's `str` byte representation. -/
def utf8EncodeChar (c : Char) : List UInt8 :=
  let n := c.toNat
  if n < 0x80 then
    [UInt8.ofNat n]
  else if n < 0x800 then
    [UInt8.ofNat (0xC0 ||| (n >>> 6)),
     UInt8.ofNat (0x80 ||| (n &&& 0x3F))]
  else if n < 0x10000 then
    [UInt8.ofNat (0xE0 ||| (n >>> 12)),
     UInt8.ofNat (0x80 ||| ((n >>> 6) &&& 0x3F)),
     UInt8.ofNat (0x80 ||| (n &&& 0x3F))]
  else
    [UInt8.ofNat (0xF0 ||| (n >>> 18)),
     UInt8.ofNat (0x80 ||| ((n >>> 12) &&& 0x3F)),
     UInt8.ofNat (0x80 ||| ((n >>> 6) &&& 0x3F)),
     UInt8.ofNat (0x80 ||| (n &&& 0x3F))]

/-- UTF-8 bytes of a string: Rust's `s.bytes()`. -/
def strBytes (s : String) : List UInt8 := s.data.flatMap utf8EncodeChar

/-- UTF-8 byte length of a string: Rust's `s.len()`. -/
def strLen (s : String) : Nat := (strBytes s).length

/-- Rust `u8::is_ascii_lowercase`. -/
def isAsciiLowercaseByte (b : UInt8) : Bool :=
  97 ≤ b.toNat && b.toNat ≤ 122

/-- Rust `u8::is_ascii_uppercase`. -/
def isAsciiUppercaseByte (b : UInt8) : Bool :=
  65 ≤ b.toNat && b.toNat ≤ 90

/-- Rust `char::is_ascii_alphabetic`. -/
def isAsciiAlphabeticChar (c : Char) : Bool :=
  (65 ≤ c.toNat && c.toNat ≤ 90) || (97 ≤ c.toNat && c.toNat ≤ 122)

/-- Rust `char::is_ascii_alphanumeric`. -/
def isAsciiAlphanumericChar (c : Char) : Bool :=
  isAsciiAlphabeticChar c || (48 ≤ c.toNat && c.toNat ≤ 57)

/-- Source `Validator::validate_password_strict`. The `serde_json::Map` of
sub-errors is modelled as the association list of `(key, message)` pairs in
the order the source inserts them (all inserted keys are distinct, so
membership — what the spec talks about — is unaffected by map ordering). -/
def Validator.validate_password_strict (v : Validator) :
    Null (List (String × ErrMsg)) :=
  let length := strLen v.string_value
  let e1 :=
    if length < MIN then
      [("minimum", i18nBuild (v.field ++ "-minimum") [("min", toString MIN)])]
    else []
  let e2 :=
    if length > MAX then
      [("maximum", i18nBuild (v.field ++ "-maximum") [("max", toString MAX)])]
    else []
  let e3 :=
    if !(strBytes v.string_value).any isAsciiLowercaseByte then
      [("lowercase", i18nGet (v.field ++ "-lowercase"))]
    else []
  let e4 :=
    if !(strBytes v.string_value).any isAsciiUppercaseByte then
      [("uppercase", i18nGet (v.field ++ "-uppercase"))]
    else []
  let e5 :=
    if v.string_value.data.all isAsciiAlphabeticChar then
      [("number", i18nGet (v.field ++ "-number"))]
    else []
  let e6 :=
    if v.string_value.data.all isAsciiAlphanumericChar then
      [("symbol", i18nGet (v.field ++ "-symbol"))]
    else []
  let errors := e1 ++ e2 ++ e3 ++ e4 ++ e5 ++ e6
  if errors.isEmpty then Null.Undefined else Null.Value errors

/-- Keys of a structured multi-key error outcome (empty list when the
outcome is not an error). -/
def nullKeys (r : Null (List (String × ErrMsg))) : List String :=
  match r with
  | .Value l => l.map Prod.fst
  | _ => []

/-- Rust's truncating cast `usize as i32`: keep the low 32 bits and
reinterpret as two's-complement signed. -/
def usizeAsI32 (n : Nat) : Int :=
  if n % 2 ^ 32 < 2 ^ 31 then ((n % 2 ^ 32 : Nat) : Int)
  else ((n % 2 ^ 32 : Nat) : Int) - 2 ^ 32

/-- Rust's cast `usize as i64`: reinterpret the 64-bit value as
two's-complement signed. -/
def usizeAsI64 (n : Nat) : Int :=
  if n % 2 ^ 64 < 2 ^ 63 then ((n % 2 ^ 64 : Nat) : Int)
  else ((n % 2 ^ 64 : Nat) : Int) - 2 ^ 64

/-- Rust `str::to_lowercase`, modelled by per-character lowercasing (the
mappings agree on ASCII, which is all the option-list comparisons in the
claims exercise). -/
def toLowercaseStr (s : String) : String := ⟨s.data.map Char.toLower⟩

/-- Source `Validator::validate_b64_bytes`. The external URL-safe base64
decoder is passed as the parameter `decode` (decode failure is `none`). -/
def Validator.validate_b64_bytes (v : Validator)
    (decode : String → Option (List UInt8)) : Null ErrMsg :=
  if v.is_required ∧ v.string_value = "" then
    Null.Value (i18nGet (v.field ++ "-invalid"))
  else
    match v.len with
    | some len =>
      match decode v.string_value with
      | some signing =>
        if len ≠ signing.length then
          Null.Value (i18nBuild (v.field ++ "-len") [("len", toString len)])
        else
          Null.Undefined
      | none => Null.Undefined
    | none => Null.Undefined

/-- First `if let` of `validate_i32`: the combined min-and-max check
(logical AND of below-minimum and above-maximum). -/
def checkI32MinMax (v : Validator) : Option ErrMsg :=
  match v.min, v.max, v.i32_value with
  | some mn, some mx, some value =>
    if v.is_required ∧ value < usizeAsI32 mn ∧ value > usizeAsI32 mx then
      some (i18nBuild (v.field ++ "-min-max")
        [("min", toString mn), ("max", toString mx)])
    else none
  | _, _, _ => none

/-- Second `if let` of `validate_i32`: the below-minimum check. -/
def checkI32Min (v : Validator) : Option ErrMsg :=
  match v.min, v.i32_value with
  | some mn, some value =>
    if v.is_required ∧ value < usizeAsI32 mn then
      some (i18nBuild (v.field ++ "-min") [("min", toString mn)])
    else none
  | _, _ => none

/-- Third `if let` of `validate_i32`: the above-maximum check. -/
def checkI32Max (v : Validator) : Option ErrMsg :=
  match v.max, v.i32_value with
  | some mx, some value =>
    if v.is_required ∧ value > usizeAsI32 mx then
      some (i18nBuild (v.field ++ "-max") [("max", toString mx)])
    else none
  | _, _ => none

/-- Source `Validator::validate_i32`: required-and-absent check, then the
three sequential early-return range checks. -/
def Validator.validate_i32 (v : Validator) : Null ErrMsg :=
  if v.is_required ∧ v.i32_value.isNone then
    Null.Value (i18nGet (v.field ++ "-empty"))
  else
    match checkI32MinMax v with
    | some e => Null.Value e
    | none =>
      match checkI32Min v with
      | some e => Null.Value e
      | none =>
        match checkI32Max v with
        | some e => Null.Value e
        | none => Null.Undefined

/-- First `if let` of `validate_i64`. -/
def checkI64MinMax (v : Validator) : Option ErrMsg :=
  match v.min, v.max, v.i64_value with
  | some mn, some mx, some value =>
    if v.is_required ∧ value < usizeAsI64 mn ∧ value > usizeAsI64 mx then
      some (i18nBuild (v.field ++ "-min-max")
        [("min", toString mn), ("max", toString mx)])
    else none
  | _, _, _ => none

/-- Second `if let` of `validate_i64`. -/
def checkI64Min (v : Validator) : Option ErrMsg :=
  match v.min, v.i64_value with
  | some mn, some value =>
    if v.is_required ∧ value < usizeAsI64 mn then
      some (i18nBuild (v.field ++ "-min") [("min", toString mn)])
    else none
  | _, _ => none

/-- Third `if let` of `validate_i64`. -/
def checkI64Max (v : Validator) : Option ErrMsg :=
  match v.max, v.i64_value with
  | some mx, some value =>
    if v.is_required ∧ value > usizeAsI64 mx then
      some (i18nBuild (v.field ++ "-max") [("max", toString mx)])
    else none
  | _, _ => none

/-- Source `Validator::validate_i64`. -/
def Validator.validate_i64 (v : Validator) : Null ErrMsg :=
  if v.is_required ∧ v.i64_value.isNone then
    Null.Value (i18nGet (v.field ++ "-empty"))
  else
    match checkI64MinMax v with
    | some e => Null.Value e
    | none =>
      match checkI64Min v with
      | some e => Null.Value e
      | none =>
        match checkI64Max v with
        | some e => Null.Value e
        | none => Null.Undefined

/-- First `if let` of `validate_f32`; `castF32` is the narrowing cast
`f64 as f32` (an external IEEE operation), applied to the stored bounds. -/
def checkF32MinMax (castF32 : Float → Float) (v : Validator) :
    Option ErrMsg :=
  match v.fmin, v.fmax, v.f32_value with
  | some mn, some mx, some value =>
    if v.is_required ∧ value < castF32 mn ∧ value > castF32 mx then
      some (i18nBuild (v.field ++ "-min-max")
        [("min", toString mn), ("max", toString mx)])
    else none
  | _, _, _ => none

/-- Second `if let` of `validate_f32`. -/
def checkF32Min (castF32 : Float → Float) (v : Validator) : Option ErrMsg :=
  match v.fmin, v.f32_value with
  | some mn, some value =>
    if v.is_required ∧ value < castF32 mn then
      some (i18nBuild (v.field ++ "-min") [("min", toString mn)])
    else none
  | _, _ => none

/-- Third `if let` of `validate_f32`. -/
def checkF32Max (castF32 : Float → Float) (v : Validator) : Option ErrMsg :=
  match v.fmax, v.f32_value with
  | some mx, some value =>
    if v.is_required ∧ value > castF32 mx then
      some (i18nBuild (v.field ++ "-max") [("max", toString mx)])
    else none
  | _, _ => none

/-- Source `Validator::validate_f32`. -/
def Validator.validate_f32 (v : Validator) (castF32 : Float → Float) :
    Null ErrMsg :=
  if v.is_required ∧ v.f32_value.isNone then
    Null.Value (i18nGet (v.field ++ "-empty"))
  else
    match checkF32MinMax castF32 v with
    | some e => Null.Value e
    | none =>
      match checkF32Min castF32 v with
      | some e => Null.Value e
      | none =>
        match checkF32Max castF32 v with
        | some e => Null.Value e
        | none => Null.Undefined

/-- First `if let` of `validate_f64`. -/
def checkF64MinMax (v : Validator) : Option ErrMsg :=
  match v.fmin, v.fmax, v.f64_value with
  | some mn, some mx, some value =>
    if v.is_required ∧ value < mn ∧ value > mx then
      some (i18nBuild (v.field ++ "-min-max")
        [("min", toString mn), ("max", toString mx)])
    else none
  | _, _, _ => none

/-- Second `if let` of `validate_f64`. -/
def checkF64Min (v : Validator) : Option ErrMsg :=
  match v.fmin, v.f64_value with
  | some mn, some value =>
    if v.is_required ∧ value < mn then
      some (i18nBuild (v.field ++ "-min") [("min", toString mn)])
    else none
  | _, _ => none

/-- Third `if let` of `validate_f64`. -/
def checkF64Max (v : Validator) : Option ErrMsg :=
  match v.fmax, v.f64_value with
  | some mx, some value =>
    if v.is_required ∧ value > mx then
      some (i18nBuild (v.field ++ "-max") [("max", toString mx)])
    else none
  | _, _ => none

/-- Source `Validator::validate_f64`. -/
def Validator.validate_f64 (v : Validator) : Null ErrMsg :=
  if v.is_required ∧ v.f64_value.isNone then
    Null.Value (i18nGet (v.field ++ "-empty"))
  else
    match checkF64MinMax v with
    | some e => Null.Value e
    | none =>
      match checkF64Min v with
      | some e => Null.Value e
      | none =>
        match checkF64Max v with
        | some e => Null.Value e
        | none => Null.Undefined

/-- The source's `size_scale` table. -/
def sizeScaleList : List String :=
  ["XXSM", "XSM", "SM", "MD", "LG", "XLG", "XXLG"]

/-- The source's `size_type` table. -/
def sizeTypeList : List String :=
  ["THUMBNAIL", "LANDSCAPE", "PORTRAIT"]

/-- The `errors` vector built by `validate_list_sizes`: the
required-and-empty push followed by the per-element invalid-entry pushes
(the two guards are mutually exclusive, so concatenation preserves the
source's push order). The external `serde_json::to_string` serializer for
one size is the parameter `ser` (serialization failure is `none`; the
source's `unwrap_or_default` is `getD ""`). -/
def listSizesErrors (v : Validator) (ser : Size → Option String) :
    List ErrMsg :=
  (if v.is_required ∧ v.list_sizes_value = [] then
    [i18nGet (v.field ++ "-empty")]
  else []) ++
  (if v.is_required ∧ ¬ v.list_sizes_value = [] then
    v.list_sizes_value.filterMap (fun size =>
      let has_scale := sizeScaleList.contains size.scale
      let has_type := sizeTypeList.contains size.orientation
      let has_width : Bool := decide (size.width > 0)
      let has_height : Bool := decide (size.height > 0)
      if !has_scale || !has_type || !has_width || !has_height then
        some (i18nBuild (v.field ++ "-invalid")
          [("entry", (ser size).getD "")])
      else none)
  else [])

/-- Source `Validator::validate_list_sizes`. -/
def Validator.validate_list_sizes (v : Validator)
    (ser : Size → Option String) : Null (List ErrMsg) :=
  if (listSizesErrors v ser).isEmpty then Null.Undefined
  else Null.Value (listSizesErrors v ser)

/-- Source `Validator::validate_list_string`. -/
def Validator.validate_list_string (v : Validator) : Null ErrMsg :=
  if v.is_required ∧ v.string_value = "" then
    Null.Value (i18nGet (v.field ++ "-empty"))
  else
    match v.option_list_string with
    | some list =>
      match v.is_case_sensitive with
      | true =>
        if v.is_required ∧ ¬ list.contains v.string_value then
          Null.Value (i18nGet (v.field ++ "-invalid"))
        else Null.Undefined
      | false =>
        let list2 := list.map toLowercaseStr
        if v.is_required ∧ ¬ list2.contains (toLowercaseStr v.string_value) then
          Null.Value (i18nGet (v.field ++ "-invalid"))
        else Null.Undefined
    | none => Null.Undefined

/-- The `wrapped_items` vector of `validate_list_options`: each option
wrapped in `❛❜` marks. -/
def wrappedItems (v : Validator) : List String :=
  (v.option_list_string.getD []).map (fun item => "❛" ++ item ++ "❜")

/-- The `args` string of `validate_list_options`: all but the last item
joined with `", "`, then `" and "` and the last item (single or empty
lists are joined plainly). The source's `.unwrap()` on the last item is
modelled by `Option`: `none` here would mean the source panicked. -/
def listOptionsArgs (v : Validator) : Option String :=
  if (wrappedItems v).length > 1 then
    match (wrappedItems v).getLast? with
    | none => none
    | some last =>
      some (String.intercalate ", "
        ((wrappedItems v).take ((wrappedItems v).length - 1))
        ++ " and " ++ last)
  else
    some (String.join (wrappedItems v))

/-- Source `Validator::validate_list_options`: an overall result of
`none` would mean the source panicked while building `args`. -/
def Validator.validate_list_options (v : Validator) :
    Option (Null ErrMsg) :=
  if v.is_required ∧ v.string_value = "" then
    some (Null.Value (i18nGet (v.field ++ "-empty")))
  else
    match listOptionsArgs v with
    | none => none
    | some args =>
      let parent := v.parent_string
      some (
        match v.option_list_string with
        | some list =>
          match v.is_case_sensitive with
          | true =>
            if v.is_required ∧ ¬ list.contains v.string_value then
              if parent = "" then
                Null.Value (i18nBuild (v.field ++ "-invalid")
                  [("options", args)])
              else
                Null.Value (i18nBuild (v.field ++ "-invalid")
                  [("options", args), ("parent", parent)])
            else Null.Undefined
          | false =>
            let list2 := list.map toLowercaseStr
            if v.is_required ∧
                ¬ list2.contains (toLowercaseStr v.string_value) then
              if parent = "" then
                Null.Value (i18nBuild (v.field ++ "-invalid")
                  [("options", args)])
              else
                Null.Value (i18nBuild (v.field ++ "-invalid")
                  [("options", args), ("parent", parent)])
            else Null.Undefined
        | none => Null.Undefined)

/-- Source `Validator::validate_string`. -/
def Validator.validate_string (v : Validator) : Null ErrMsg :=
  if v.string_value = "" then
    Null.Value (i18nGet (v.field ++ "-empty"))
  else
    match v.min, v.max with
    | some mn, some mx =>
      let len := strLen v.string_value
      if len < mn ∧ len > mx then
        Null.Value (i18nBuild (v.field ++ "-min-max")
          [("min", toString mn), ("max", toString mx)])
      else if len < mn then
        Null.Value (i18nBuild (v.field ++ "-min") [("min", toString mn)])
      else if len > mx then
        Null.Value (i18nBuild (v.field ++ "-max") [("max", toString mx)])
      else Null.Undefined
    | some mn, none =>
      if strLen v.string_value < mn then
        Null.Value (i18nBuild (v.field ++ "-min") [("min", toString mn)])
      else Null.Undefined
    | none, some mx =>
      if strLen v.string_value > mx then
        Null.Value (i18nBuild (v.field ++ "-max") [("max", toString mx)])
      else Null.Undefined
    | none, none => Null.Undefined

/-- Source `Validator::validate_name`: delegate to `validate_string`, then
match against the name pattern. The external regex engine is the parameter
`re`: `none` models `Regex::new` failing to compile the pattern, and
`some isMatch` a compiled regex with its match predicate. -/
def Validator.validate_name (v : Validator) (re : Option (String → Bool)) :
    Null ErrMsg :=
  if (v.validate_string).is_some then v.validate_string
  else
    match re with
    | some isMatch =>
      if !isMatch v.string_value then
        Null.Value (i18nGet (v.field ++ "-invalid"))
      else Null.Undefined
    | none => Null.Value (i18nGet (v.field ++ "-invalid"))

/-- Source `Validator::validate_password_simple`: delegates to
`validate_string`. -/
def Validator.validate_password_simple (v : Validator) : Null ErrMsg :=
  v.validate_string

/-! Claim C2 and C6 fixtures: `validate_password_strict` candidates. -/

/-- Password validator whose candidate string is empty. -/
def pwEmpty : Validator :=
  (Validator.new "pw").set_string_value (Null.Value "")

/-- Password validator whose candidate string is `"abc"`. -/
def pwAbc : Validator :=
  (Validator.new "pw").set_string_value (Null.Value "abc")

/-- C2 (counterexample): for the empty candidate string,
`validate_password_strict` does NOT produce an error containing only the
`minimum` key — the `lowercase` key (among others) is present as well,
because an empty byte sequence has no ASCII-lowercase byte. -/
theorem password_strict_empty_counterexample :
    "lowercase" ∈ nullKeys pwEmpty.validate_password_strict ∧
    nullKeys pwEmpty.validate_password_strict ≠ ["minimum"] := by
  decide

/-- C2 (amended): for every validator whose candidate string is empty,
`validate_password_strict` produces a structured error whose keys are
exactly `minimum`, `lowercase`, `uppercase`, `number`, `symbol` (all
failure keys except `maximum`); in particular there is no separate
empty-string check and no `empty` key. -/
theorem password_strict_empty_all_flags (v : Validator)
    (h : v.string_value = "") :
    nullKeys v.validate_password_strict =
      ["minimum", "lowercase", "uppercase", "number", "symbol"] ∧
    Null.is_some v.validate_password_strict = true := by
  obtain ⟨f, mi, fmi, fma, ma, le, ol, cs, nu, rq, a32, a64, b32, b64, sv,
    ps, ls⟩ := v
  simp only at h
  subst h
  exact ⟨rfl, rfl⟩

/-- C2 (witness): the amended theorem applied to the concrete empty-string
password validator. -/
theorem password_strict_empty_all_flags_witness :
    nullKeys pwEmpty.validate_password_strict =
      ["minimum", "lowercase", "uppercase", "number", "symbol"] ∧
    Null.is_some pwEmpty.validate_password_strict = true :=
  password_strict_empty_all_flags pwEmpty rfl

/-- C6: for candidate `"abc"`, `validate_password_strict` produces a
structured error whose keys are exactly `minimum`, `uppercase`, `number`,
`symbol`, containing neither `lowercase` nor `maximum`. -/
theorem password_strict_abc_exact_keys :
    nullKeys pwAbc.validate_password_strict =
      ["minimum", "uppercase", "number", "symbol"] ∧
    "lowercase" ∉ nullKeys pwAbc.validate_password_strict ∧
    "maximum" ∉ nullKeys pwAbc.validate_password_strict ∧
    Null.is_some pwAbc.validate_password_strict = true := by
  decide

/-! Claim C3 fixtures: case-insensitive option-list membership. -/

/-- The §8 configuration: case-insensitive, options `["Red", "Blue"]`. -/
def colorBase : Validator :=
  ((Validator.new "color").set_as_case_sensitive false).set_option_list
    ["Red", "Blue"]

/-- The §8 configuration with candidate `"green"` (note: `set_as_required`
is never called, so `is_required` keeps its default `false`). -/
def colorGreen : Validator :=
  colorBase.set_string_value (Null.Value "green")

/-- The §8 configuration with candidate `"red"`. -/
def colorRed : Validator :=
  colorBase.set_string_value (Null.Value "red")

/-- The §8 configuration plus `set_as_required(true)`, candidate
`"green"`. -/
def colorGreenReq : Validator :=
  (colorBase.set_as_required true).set_string_value (Null.Value "green")

/-- The §8 configuration plus `set_as_required(true)`, candidate
`"red"`. -/
def colorRedReq : Validator :=
  (colorBase.set_as_required true).set_string_value (Null.Value "red")

/-- C3 (counterexample): with the §8 configuration exactly as stated
(no `set_as_required`, so `is_required` is the default `false`), candidate
`"green"` does NOT yield the `color-invalid` error: the membership check
in `validate_list_string` is gated on `is_required`, so the result is
no-error. -/
theorem list_string_optional_green_counterexample :
    colorGreen.validate_list_string = Null.Undefined ∧
    colorGreen.validate_list_string ≠ Null.Value (i18nGet "color-invalid") := by
  decide

/-- C3 (amended): the §8 example holds once `set_as_required(true)` is
added: candidate `"red"` passes `validate_list_string` and candidate
`"green"` yields the `color-invalid` error. (Without the required flag
both candidates pass, `"red"` included.) -/
theorem list_string_case_insensitive_amended :
    colorRedReq.validate_list_string = Null.Undefined ∧
    colorGreenReq.validate_list_string =
      Null.Value (i18nGet "color-invalid") ∧
    colorRed.validate_list_string = Null.Undefined := by
  decide

/-- C8: when `is_required` is false, every numeric evaluator returns
no-error for every candidate value and every combination of bounds: all
four checks of each evaluator are conjunctions starting with
`is_required`, so bound violations on an optional field are silently
ignored. `castF32` ranges over every possible `f64 as f32` narrowing. -/
theorem optional_numeric_silent (v : Validator) (castF32 : Float → Float)
    (hreq : v.is_required = false) :
    v.validate_i32 = Null.Undefined ∧
    v.validate_i64 = Null.Undefined ∧
    v.validate_f32 castF32 = Null.Undefined ∧
    v.validate_f64 = Null.Undefined := by
  refine ⟨?_, ?_, ?_, ?_⟩
  · cases h1 : v.min <;> cases h2 : v.max <;> cases h3 : v.i32_value <;>
      simp [Validator.validate_i32, checkI32MinMax, checkI32Min,
        checkI32Max, hreq, h1, h2, h3]
  · cases h1 : v.min <;> cases h2 : v.max <;> cases h3 : v.i64_value <;>
      simp [Validator.validate_i64, checkI64MinMax, checkI64Min,
        checkI64Max, hreq, h1, h2, h3]
  · cases h1 : v.fmin <;> cases h2 : v.fmax <;> cases h3 : v.f32_value <;>
      simp [Validator.validate_f32, checkF32MinMax, checkF32Min,
        checkF32Max, hreq, h1, h2, h3]
  · cases h1 : v.fmin <;> cases h2 : v.fmax <;> cases h3 : v.f64_value <;>
      simp [Validator.validate_f64, checkF64MinMax, checkF64Min,
        checkF64Max, hreq, h1, h2, h3]

/-- Optional numeric field fully configured with bounds and out-of-range
candidate values, `is_required` left at its default `false`. -/
def vOptional : Validator :=
  ((((((Validator.new "score").set_min 10).set_max 20).set_fmin
    10.0).set_fmax 20.0).set_i32_value (Null.Value 999)).set_i64_value
    (Null.Value 999)
  |>.set_f32_value (Null.Value 999.0) |>.set_f64_value (Null.Value 999.0)

/-- C8 (witness): the theorem applied to a concrete optional validator
whose candidate values violate all its bounds. -/
theorem optional_numeric_silent_witness :
    vOptional.validate_i32 = Null.Undefined ∧
    vOptional.validate_i64 = Null.Undefined ∧
    vOptional.validate_f32 (fun x => x) = Null.Undefined ∧
    vOptional.validate_f64 = Null.Undefined :=
  optional_numeric_silent vOptional (fun x => x) rfl

/-- Casting a `usize` below `2^31` to `i32` is the identity. -/
theorem usizeAsI32_small (n : Nat) (h : n < 2 ^ 31) :
    usizeAsI32 n = (n : Int) := by
  unfold usizeAsI32
  simp only [Nat.mod_eq_of_lt (show n < 2 ^ 32 by omega)]
  rw [if_pos h]

/-- Casting a `usize` below `2^63` to `i64` is the identity. -/
theorem usizeAsI64_small (n : Nat) (h : n < 2 ^ 63) :
    usizeAsI64 n = (n : Int) := by
  unfold usizeAsI64
  simp only [Nat.mod_eq_of_lt (show n < 2 ^ 64 by omega)]
  rw [if_pos h]

/-- Evaluation shape of `validate_i32` when the field is required and the
value and both bounds are present: the three range checks in source
order. -/
theorem validate_i32_eq (v : Validator) (mn mx : Nat) (value : Int)
    (hreq : v.is_required = true) (hmn : v.min = some mn)
    (hmx : v.max = some mx) (hval : v.i32_value = some value) :
    v.validate_i32 =
      if value < usizeAsI32 mn ∧ value > usizeAsI32 mx then
        Null.Value (i18nBuild (v.field ++ "-min-max")
          [("min", toString mn), ("max", toString mx)])
      else if value < usizeAsI32 mn then
        Null.Value (i18nBuild (v.field ++ "-min") [("min", toString mn)])
      else if value > usizeAsI32 mx then
        Null.Value (i18nBuild (v.field ++ "-max") [("max", toString mx)])
      else Null.Undefined := by
  simp only [Validator.validate_i32, checkI32MinMax, checkI32Min,
    checkI32Max, hreq, hmn, hmx, hval, Option.isNone_some,
    Bool.false_eq_true, and_false, false_and, eq_self_iff_true, true_and,
    if_false]
  split_ifs <;> rfl

/-- Evaluation shape of `validate_i64` when the field is required and the
value and both bounds are present. -/
theorem validate_i64_eq (v : Validator) (mn mx : Nat) (value : Int)
    (hreq : v.is_required = true) (hmn : v.min = some mn)
    (hmx : v.max = some mx) (hval : v.i64_value = some value) :
    v.validate_i64 =
      if value < usizeAsI64 mn ∧ value > usizeAsI64 mx then
        Null.Value (i18nBuild (v.field ++ "-min-max")
          [("min", toString mn), ("max", toString mx)])
      else if value < usizeAsI64 mn then
        Null.Value (i18nBuild (v.field ++ "-min") [("min", toString mn)])
      else if value > usizeAsI64 mx then
        Null.Value (i18nBuild (v.field ++ "-max") [("max", toString mx)])
      else Null.Undefined := by
  simp only [Validator.validate_i64, checkI64MinMax, checkI64Min,
    checkI64Max, hreq, hmn, hmx, hval, Option.isNone_some,
    Bool.false_eq_true, and_false, false_and, eq_self_iff_true, true_and,
    if_false]
  split_ifs <;> rfl

/-- Appending suffixes of distinct lengths to one prefix yields distinct
keys. -/
theorem append_suffix_length_ne (f a b : String)
    (h : a.length ≠ b.length) : f ++ a ≠ f ++ b := by
  intro he
  apply h
  have h2 := congrArg String.length he
  rw [String.length_append, String.length_append] at h2
  omega

/-- C1: for `validate_i32` and `validate_i64` with `is_required` true, a
present value, and bounds `min ≤ max` (each representable in the target
integer width): an in-range value yields no-error, a value below `min`
yields the `{field}-min` error, a value above `max` yields the
`{field}-max` error, and the combined `{field}-min-max` error is never
produced (its AND-condition `value < min ∧ value > max` is unsatisfiable
when `min ≤ max`); the checks run in source order empty, min-and-max,
min-only, max-only. -/
theorem validate_int_bounds_spec (v : Validator) (mn mx : Nat) (value : Int)
    (hreq : v.is_required = true)
    (hmn : v.min = some mn) (hmx : v.max = some mx) (hle : mn ≤ mx) :
    (v.i32_value = some value → mx < 2 ^ 31 →
      (((mn : Int) ≤ value ∧ value ≤ (mx : Int) →
          v.validate_i32 = Null.Undefined) ∧
        (value < (mn : Int) →
          v.validate_i32 =
            Null.Value (i18nBuild (v.field ++ "-min")
              [("min", toString mn)])) ∧
        (value > (mx : Int) →
          v.validate_i32 =
            Null.Value (i18nBuild (v.field ++ "-max")
              [("max", toString mx)])) ∧
        (∀ args, v.validate_i32 ≠
          Null.Value ⟨v.field ++ "-min-max", args⟩))) ∧
    (v.i64_value = some value → mx < 2 ^ 63 →
      (((mn : Int) ≤ value ∧ value ≤ (mx : Int) →
          v.validate_i64 = Null.Undefined) ∧
        (value < (mn : Int) →
          v.validate_i64 =
            Null.Value (i18nBuild (v.field ++ "-min")
              [("min", toString mn)])) ∧
        (value > (mx : Int) →
          v.validate_i64 =
            Null.Value (i18nBuild (v.field ++ "-max")
              [("max", toString mx)])) ∧
        (∀ args, v.validate_i64 ≠
          Null.Value ⟨v.field ++ "-min-max", args⟩))) := by
  constructor
  · intro hval h31
    have e := validate_i32_eq v mn mx value hreq hmn hmx hval
    rw [usizeAsI32_small mn (lt_of_le_of_lt hle h31),
      usizeAsI32_small mx h31] at e
    refine ⟨fun hin => ?_, fun hlt => ?_, fun hgt => ?_,
      fun args hcontra => ?_⟩
    · rw [e, if_neg (by omega), if_neg (by omega), if_neg (by omega)]
    · rw [e, if_neg (by omega), if_pos hlt]
    · rw [e, if_neg (by omega), if_neg (by omega), if_pos hgt]
    · rw [e] at hcontra
      split_ifs at hcontra with h1 h2 h3
      · omega
      · injection hcontra with he
        exact append_suffix_length_ne v.field "-min" "-min-max"
          (by decide) (congrArg ErrMsg.key he)
      · injection hcontra with he
        exact append_suffix_length_ne v.field "-max" "-min-max"
          (by decide) (congrArg ErrMsg.key he)
  · intro hval h63
    have e := validate_i64_eq v mn mx value hreq hmn hmx hval
    rw [usizeAsI64_small mn (lt_of_le_of_lt hle h63),
      usizeAsI64_small mx h63] at e
    refine ⟨fun hin => ?_, fun hlt => ?_, fun hgt => ?_,
      fun args hcontra => ?_⟩
    · rw [e, if_neg (by omega), if_neg (by omega), if_neg (by omega)]
    · rw [e, if_neg (by omega), if_pos hlt]
    · rw [e, if_neg (by omega), if_neg (by omega), if_pos hgt]
    · rw [e] at hcontra
      split_ifs at hcontra with h1 h2 h3
      · omega
      · injection hcontra with he
        exact append_suffix_length_ne v.field "-min" "-min-max"
          (by decide) (congrArg ErrMsg.key he)
      · injection hcontra with he
        exact append_suffix_length_ne v.field "-max" "-min-max"
          (by decide) (congrArg ErrMsg.key he)

/-- Required integer field with bounds `[1, 10]` and candidate `5`. -/
def vIntBounds : Validator :=
  ((((Validator.new "age").set_as_required true).set_min 1).set_max
    10).set_i32_value (Null.Value 5) |>.set_i64_value (Null.Value 5)

/-- C1 (witness): the theorem applied to a concrete required validator
with bounds `[1, 10]` and in-range candidate `5`. -/
theorem validate_int_bounds_spec_witness :
    vIntBounds.validate_i32 = Null.Undefined ∧
    vIntBounds.validate_i64 = Null.Undefined := by
  have h := validate_int_bounds_spec vIntBounds 1 10 5 rfl rfl rfl
    (by norm_num)
  exact ⟨(h.1 rfl (by norm_num)).1 ⟨by norm_num, by norm_num⟩,
    (h.2 rfl (by norm_num)).1 ⟨by norm_num, by norm_num⟩⟩

/-- C5: `validate_string` yields the `{field}-empty` error on the empty
string unconditionally (in particular for every value of `is_required`,
which the evaluator never reads); for a non-empty string with both bounds
set and `min ≤ max`, a byte length within `[min, max]` yields no-error, a
length below `min` yields `{field}-min`, and a length above `max` yields
`{field}-max` — again for every value of `is_required`. -/
theorem validate_string_length_spec :
    (∀ v : Validator, v.string_value = "" →
      v.validate_string = Null.Value (i18nGet (v.field ++ "-empty"))) ∧
    (∀ (v : Validator) (mn mx : Nat), v.min = some mn → v.max = some mx →
      mn ≤ mx → v.string_value ≠ "" →
      ((mn ≤ strLen v.string_value ∧ strLen v.string_value ≤ mx →
          v.validate_string = Null.Undefined) ∧
        (strLen v.string_value < mn →
          v.validate_string =
            Null.Value (i18nBuild (v.field ++ "-min")
              [("min", toString mn)])) ∧
        (strLen v.string_value > mx →
          v.validate_string =
            Null.Value (i18nBuild (v.field ++ "-max")
              [("max", toString mx)])))) := by
  constructor
  · intro v h
    simp [Validator.validate_string, h]
  · intro v mn mx hmn hmx hle hne
    have e : v.validate_string =
        if strLen v.string_value < mn ∧ strLen v.string_value > mx then
          Null.Value (i18nBuild (v.field ++ "-min-max")
            [("min", toString mn), ("max", toString mx)])
        else if strLen v.string_value < mn then
          Null.Value (i18nBuild (v.field ++ "-min") [("min", toString mn)])
        else if strLen v.string_value > mx then
          Null.Value (i18nBuild (v.field ++ "-max") [("max", toString mx)])
        else Null.Undefined := by
      simp only [Validator.validate_string, hmn, hmx]
      rw [if_neg hne]
    refine ⟨fun hin => ?_, fun hlt => ?_, fun hgt => ?_⟩
    · rw [e, if_neg (by omega), if_neg (by omega), if_neg (by omega)]
    · rw [e, if_neg (by omega), if_pos hlt]
    · rw [e, if_neg (by omega), if_neg (by omega), if_pos hgt]

/-- String validator with an empty candidate (and `is_required` true, to
exhibit that emptiness is reported independently of it). -/
def vStrEmpty : Validator :=
  ((Validator.new "nick").set_as_required true).set_string_value
    (Null.Value "")

/-- String validator with bounds `[2, 10]` and candidate `"hello"`,
`is_required` left false. -/
def vStrBounds : Validator :=
  (((Validator.new "nick").set_min 2).set_max 10).set_string_value
    (Null.Value "hello")

/-- C5 (witness): the theorem applied to a concrete required empty-string
validator and a concrete optional in-range validator. -/
theorem validate_string_length_spec_witness :
    vStrEmpty.validate_string = Null.Value (i18nGet ("nick" ++ "-empty")) ∧
    vStrBounds.validate_string = Null.Undefined := by
  refine ⟨validate_string_length_spec.1 vStrEmpty rfl, ?_⟩
  exact (validate_string_length_spec.2 vStrBounds 2 10 rfl rfl
    (by norm_num) (by decide)).1 ⟨by decide, by decide⟩

/-- C7: for `validate_list_sizes` with `is_required` true: a one-element
list whose element has `width = 0` (and valid scale, orientation and
height) yields exactly the one `{field}-invalid` entry carrying the
serialized element, and no `{field}-empty` entry; the empty list yields
exactly the one `{field}-empty` entry and no `{field}-invalid` entries. -/
theorem validate_list_sizes_spec (v : Validator) (s : Size)
    (ser : Size → Option String) (hreq : v.is_required = true) :
    (v.list_sizes_value = [s] → s.width = 0 →
      s.scale ∈ sizeScaleList → s.orientation ∈ sizeTypeList →
      0 < s.height →
      v.validate_list_sizes ser =
        Null.Value [i18nBuild (v.field ++ "-invalid")
          [("entry", (ser s).getD "")]]) ∧
    (v.list_sizes_value = [] →
      v.validate_list_sizes ser =
        Null.Value [i18nGet (v.field ++ "-empty")]) := by
  constructor
  · intro hls hw hscale htype hh
    have he : listSizesErrors v ser =
        [i18nBuild (v.field ++ "-invalid") [("entry", (ser s).getD "")]] := by
      simp [listSizesErrors, hreq, hls, hw]
    simp [Validator.validate_list_sizes, he]
  · intro hls
    have he : listSizesErrors v ser = [i18nGet (v.field ++ "-empty")] := by
      simp [listSizesErrors, hreq, hls]
    simp [Validator.validate_list_sizes, he]

/-- A size entry with zero width, valid scale/orientation/height. -/
def sizeZeroWidth : Size := ⟨"SM", "THUMBNAIL", 0, 5⟩

/-- Required size-list validator holding the one zero-width entry. -/
def vSizesOne : Validator :=
  ((Validator.new "sz").set_as_required true).set_list_sizes_value
    (Null.Value [sizeZeroWidth])

/-- Required size-list validator holding the empty sequence. -/
def vSizesEmpty : Validator :=
  ((Validator.new "sz").set_as_required true).set_list_sizes_value
    (Null.Value [])

/-- C7 (witness): the theorem applied to the two concrete required
size-list validators (with a serializer that always fails, exercising the
`unwrap_or_default` fallback). -/
theorem validate_list_sizes_spec_witness :
    vSizesOne.validate_list_sizes (fun _ => none) =
      Null.Value [i18nBuild ("sz" ++ "-invalid") [("entry", "")]] ∧
    vSizesEmpty.validate_list_sizes (fun _ => none) =
      Null.Value [i18nGet ("sz" ++ "-empty")] :=
  ⟨(validate_list_sizes_spec vSizesOne sizeZeroWidth (fun _ => none)
      rfl).1 rfl rfl (by decide) (by decide) (by decide),
   (validate_list_sizes_spec vSizesEmpty sizeZeroWidth (fun _ => none)
      rfl).2 rfl⟩

/-- C4: `validate_b64_bytes` with `is_required` true and an empty string
value yields the `{field}-invalid` error (the asymmetric key — not
`{field}-empty`); otherwise, when `len` is set and the value decodes as
URL-safe base64, a decoded byte length different from `len` yields the
`{field}-len` error carrying the `len` argument, and a matching length
yields no-error. -/
theorem b64_required_empty_and_len_spec (v : Validator)
    (decode : String → Option (List UInt8)) :
    (v.is_required = true → v.string_value = "" →
      v.validate_b64_bytes decode =
        Null.Value (i18nGet (v.field ++ "-invalid"))) ∧
    (∀ n bs, ¬ (v.is_required = true ∧ v.string_value = "") →
      v.len = some n → decode v.string_value = some bs →
      ((bs.length ≠ n →
          v.validate_b64_bytes decode =
            Null.Value (i18nBuild (v.field ++ "-len")
              [("len", toString n)])) ∧
        (bs.length = n →
          v.validate_b64_bytes decode = Null.Undefined))) := by
  constructor
  · intro h1 h2
    simp [Validator.validate_b64_bytes, h1, h2]
  · intro n bs hcond hlen hdec
    constructor
    · intro hne
      simp only [Validator.validate_b64_bytes, hlen, hdec]
      rw [if_neg hcond, if_pos (Ne.symm hne)]
    · intro heq
      simp only [Validator.validate_b64_bytes, hlen, hdec]
      rw [if_neg hcond, if_neg (by omega)]

/-- A decoder producing 15 bytes for every input. -/
def decodeFixed15 : String → Option (List UInt8) :=
  fun _ => some (List.replicate 15 0)

/-- Required base64 validator, `len = 16`, non-empty candidate. -/
def vB64Len : Validator :=
  (((Validator.new "sig").set_as_required true).set_len 16).set_string_value
    (Null.Value "x")

/-- Required base64 validator, `len = 16`, empty candidate. -/
def vB64Empty : Validator :=
  (((Validator.new "sig").set_as_required true).set_len 16).set_string_value
    (Null.Value "")

/-- C4 (witness): the theorem applied to the concrete empty-required case
and to a concrete 15-byte decode against `len = 16`. -/
theorem b64_required_empty_and_len_spec_witness :
    vB64Empty.validate_b64_bytes decodeFixed15 =
      Null.Value (i18nGet ("sig" ++ "-invalid")) ∧
    vB64Len.validate_b64_bytes decodeFixed15 =
      Null.Value (i18nBuild ("sig" ++ "-len") [("len", toString 16)]) :=
  ⟨(b64_required_empty_and_len_spec vB64Empty decodeFixed15).1 rfl rfl,
   ((b64_required_empty_and_len_spec vB64Len decodeFixed15).2 16
      (List.replicate 15 0) (by decide) rfl rfl).1 (by decide)⟩

/-- C10: every string value that fails to decode as URL-safe base64
passes `validate_b64_bytes` (provided the required-and-empty branch does
not fire first, i.e. the value is non-empty or the field optional): the
`len` constraint is only checked after a successful decode, for every
value of `len`. -/
theorem b64_undecodable_passes (v : Validator)
    (decode : String → Option (List UInt8))
    (h : v.string_value ≠ "" ∨ v.is_required = false)
    (hdec : decode v.string_value = none) :
    v.validate_b64_bytes decode = Null.Undefined := by
  have hcond : ¬ (v.is_required = true ∧ v.string_value = "") := by
    rcases h with h | h
    · exact fun hc => h hc.2
    · intro hc
      rw [h] at hc
      exact Bool.false_ne_true hc.1
  cases hl : v.len with
  | none =>
    simp only [Validator.validate_b64_bytes, hl]
    rw [if_neg hcond]
  | some n =>
    simp only [Validator.validate_b64_bytes, hl, hdec]
    rw [if_neg hcond]

/-- A decoder rejecting every input. -/
def decodeFail : String → Option (List UInt8) := fun _ => none

/-- Required base64 validator, `len = 16`, undecodable candidate. -/
def vB64Bad : Validator :=
  (((Validator.new "sig").set_as_required true).set_len 16).set_string_value
    (Null.Value "@@@")

/-- C10 (witness): the theorem applied to a concrete required validator
with `len` set whose candidate the decoder rejects. -/
theorem b64_undecodable_passes_witness :
    vB64Bad.validate_b64_bytes decodeFail = Null.Undefined :=
  b64_undecodable_passes vB64Bad decodeFail (Or.inl (by decide)) rfl

/-- The `args` string of `validate_list_options` is always built without
reaching the modelled panic: when more than one wrapped item exists, the
list is non-empty, so its last element exists. -/
theorem listOptionsArgs_isSome (v : Validator) :
    (listOptionsArgs v).isSome = true := by
  unfold listOptionsArgs
  by_cases hl : (wrappedItems v).length > 1
  · have hne : wrappedItems v ≠ [] := by
      intro h0
      rw [h0] at hl
      simp at hl
    obtain ⟨last, hlast⟩ :=
      Option.isSome_iff_exists.mp (List.getLast?_isSome.mpr hne)
    rw [if_pos hl, hlast]
    rfl
  · rw [if_neg hl]
    rfl

/-- C9: the evaluators containing partial operations return normally on
every builder state. All evaluators are total functions of the builder
state by construction; in addition (i) `validate_list_options` never
reaches the `.unwrap()` panic on the last wrapped option (the result is
always `some`), (ii) when compilation of the name pattern fails,
`validate_name` reports the `{field}-invalid` result for every candidate
that passed its string checks, and (iii) `validate_list_sizes` returns a
well-formed outcome for every serializer, including an always-failing
one. -/
theorem evaluators_total_no_panic :
    (∀ v : Validator, (v.validate_list_options).isSome = true) ∧
    (∀ v : Validator, Null.is_some v.validate_string = false →
      v.validate_name none = Null.Value (i18nGet (v.field ++ "-invalid"))) ∧
    (∀ (v : Validator) (ser : Size → Option String),
      v.validate_list_sizes ser = Null.Undefined ∨
      ∃ es, v.validate_list_sizes ser = Null.Value es ∧ es ≠ []) := by
  refine ⟨?_, ?_, ?_⟩
  · intro v
    unfold Validator.validate_list_options
    split
    · rfl
    · obtain ⟨args, hargs⟩ :=
        Option.isSome_iff_exists.mp (listOptionsArgs_isSome v)
      rw [hargs]
      rfl
  · intro v h
    simp [Validator.validate_name, h]
  · intro v ser
    by_cases he : (listSizesErrors v ser).isEmpty = true
    · exact Or.inl (by simp [Validator.validate_list_sizes, he])
    · refine Or.inr ⟨listSizesErrors v ser,
        by simp [Validator.validate_list_sizes, he], fun h0 => ?_⟩
      rw [h0] at he
      exact he rfl

/-- Required option-list validator with a non-member candidate, whose
`args` construction exercises the guarded `.unwrap()`. -/
def vOptsDemo : Validator :=
  (((Validator.new "c").set_as_required true).set_option_list
    ["a", "b", "c"]).set_string_value (Null.Value "z")

/-- Name validator whose candidate passes the string checks. -/
def vNameDemo : Validator :=
  (Validator.new "name").set_string_value (Null.Value "Bob")

/-- Required size-list validator with an empty sequence. -/
def vSizesDemo : Validator :=
  (Validator.new "sz").set_as_required true

/-- C9 (witness): the theorem applied to concrete builder states — a
three-option list (so the `.unwrap()` guard is exercised), a failing
regex compilation on a string-valid candidate, and an always-failing
serializer. -/
theorem evaluators_total_no_panic_witness :
    (vOptsDemo.validate_list_options).isSome = true ∧
    vNameDemo.validate_name none =
      Null.Value (i18nGet ("name" ++ "-invalid")) ∧
    (vSizesDemo.validate_list_sizes (fun _ => none) = Null.Undefined ∨
      ∃ es, vSizesDemo.validate_list_sizes (fun _ => none) =
        Null.Value es ∧ es ≠ []) :=
  ⟨evaluators_total_no_panic.1 vOptsDemo,
   evaluators_total_no_panic.2.1 vNameDemo rfl,
   evaluators_total_no_panic.2.2 vSizesDemo (fun _ => none)⟩

end RsValidators
